import Mathlib

/-!
Verification of the mojentic-mcp core: a shallow embedding of the
JSON-RPC dispatch table (`mojentic_mcp/rpc.py`), the HTTP and STDIO
transports (`mojentic_mcp/transports.py`) and the multi-transport client
(`mojentic_mcp/client.py`), with theorems checking the specification's
claims against that embedding.
-/

namespace MojenticMcp

/-- A JSON value, as passed around by the Python code (dicts are
insertion-ordered association lists, mirroring Python's `dict`). -/
inductive Json where
  | null
  | bool (b : Bool)
  | num (n : Int)
  | str (s : String)
  | arr (elems : List Json)
  | obj (fields : List (String × Json))

/-- Python `x is None` for an optional JSON value modelled with `Json.null`. -/
def Json.isNull : Json → Bool
  | .null => true
  | _ => false

/-- Python `j == s` where `s` is known to be a string: true exactly when `j`
is the same string (comparison of a Python `str` against a value of another
type is `False`). -/
def Json.eqStr (j : Json) (s : String) : Bool :=
  match j with
  | .str t => t = s
  | _ => false

/-- Python `d[k]` / `d.get(k)` on an insertion-ordered dict: the first
binding of the key, if any. -/
def Json.lookup (fields : List (String × Json)) (key : String) : Option Json :=
  match fields with
  | [] => none
  | (k, v) :: rest => if k = key then some v else Json.lookup rest key

/-- Python `k in d` on a dict represented as an association list. -/
def Json.hasKey (fields : List (String × Json)) (key : String) : Bool :=
  (Json.lookup fields key).isSome

/-- Python `d.get(k)` on a `Json.obj`; `none` when the value is not an
object or the key is absent. -/
def Json.objGet (j : Json) (key : String) : Option Json :=
  match j with
  | .obj fields => Json.lookup fields key
  | _ => none

/-- Whether a JSON object carries the given key (`false` for non-objects). -/
def Json.objHasKey (j : Json) (key : String) : Bool :=
  (j.objGet key).isSome

mutual

/-- Python `repr` of a JSON value (`None`, `True`, quoted strings, lists,
dicts), used when such a value is interpolated into an f-string. -/
def pyRepr : Json → String
  | .null => "None"
  | .bool true => "True"
  | .bool false => "False"
  | .num n => toString n
  | .str s => "'" ++ s ++ "'"
  | .arr xs => "[" ++ pyReprElems xs ++ "]"
  | .obj fs => "\x7b" ++ pyReprFields fs ++ "\x7d"

/-- Comma-separated `repr`s of a Python list's elements. -/
def pyReprElems : List Json → String
  | [] => ""
  | [x] => pyRepr x
  | x :: rest => pyRepr x ++ ", " ++ pyReprElems rest

/-- Comma-separated `repr`s of a Python dict's entries. -/
def pyReprFields : List (String × Json) → String
  | [] => ""
  | [(k, v)] => "'" ++ k ++ "': " ++ pyRepr v
  | (k, v) :: rest => "'" ++ k ++ "': " ++ pyRepr v ++ ", " ++ pyReprFields rest

end

/-- Python `str` of a JSON value: strings render bare, everything else as in
`repr` (booleans, `None`, containers). -/
def pyStr : Json → String
  | .str s => s
  | j => pyRepr j

/-- The Python type name of a JSON value, as `type(x).__name__` renders it
inside runtime error messages. -/
def pyTypeName : Json → String
  | .null => "NoneType"
  | .bool _ => "bool"
  | .num _ => "int"
  | .str _ => "str"
  | .arr _ => "list"
  | .obj _ => "dict"

/-! ## The JSON-RPC dispatch table, embedded from `mojentic_mcp/rpc.py` -/

/-- `JsonRpcRequest` of `rpc.py`: protocol tag, optional id (Python `None`
is modelled as `Json.null`), method name and optional params dict. -/
structure JsonRpcRequest where
  jsonrpc : String := "2.0"
  id : Json := .null
  method : String
  params : Option (List (String × Json)) := none

/-- A Python exception escaping a method handler: either the typed
`JsonRpcError(code, message, data)` of `rpc.py`, or any other exception
carrying its `str(e)` rendering. -/
inductive PyExc where
  | jsonRpc (code : Int) (message : String) (data : Option Json)
  | other (message : String)

/-- The capability contract of an `LLMTool` as used by `rpc.py`: the
descriptor's function name and description, its parameter schema, and
`run(**kwargs)`, which returns a JSON-serializable result or raises an
exception rendered by `str(e)`. -/
structure LLMTool where
  name : String
  description : String
  parameters : Json := .obj [("type", .str "object"), ("properties", .obj [])]
  run : List (String × Json) → Except String Json

/-- The mutable state of `JsonRpcHandler`: the served tools and the
`should_exit` flag. -/
structure JsonRpcHandler where
  tools : List LLMTool
  shouldExit : Bool := false

/-- The keys of `self.methods` registered in `JsonRpcHandler.__init__`. -/
def methodNames : List String :=
  ["initialize", "exit", "tools/list", "tools/call", "resources/list", "prompts/list"]

/-- `_create_result_response`: the result envelope dict, in insertion order. -/
def createResultResponse (requestId : Json) (result : Json) : Json :=
  .obj [("jsonrpc", .str "2.0"), ("id", requestId), ("result", result)]

/-- `_create_error_response`: the error envelope dict; the error object
carries `data` only when it is not `None`. -/
def createErrorResponse (requestId : Json) (code : Int) (message : String)
    (data : Option Json) : Json :=
  let err : List (String × Json) :=
    match data with
    | some d => [("code", .num code), ("message", .str message), ("data", d)]
    | none => [("code", .num code), ("message", .str message)]
  .obj [("jsonrpc", .str "2.0"), ("id", requestId), ("error", .obj err)]

/-- The version string `importlib.metadata.version("mojentic-mcp")` looks up
in the installed package metadata (external to the code under proof). -/
def packageVersion : String := "mojentic-mcp-version"

/-- `_handle_initialize`: echoes the caller's protocol version and returns
the fixed server identity and capabilities. -/
def handleIni (h : JsonRpcHandler) (params : List (String × Json)) :
    JsonRpcHandler × Except PyExc Json :=
  let protocolVersion := (Json.lookup params "protocolVersion").getD .null
  (h, .ok (.obj
    [("serverInfo", .obj [("name", .str "Mojentic MCP"), ("version", .str packageVersion)]),
     ("capabilities", .obj [("examineProvider", .bool true)]),
     ("protocolVersion", protocolVersion)]))

/-- `_handle_exit`: sets the `should_exit` flag and returns `None`. -/
def handleExit (h : JsonRpcHandler) (_params : List (String × Json)) :
    JsonRpcHandler × Except PyExc Json :=
  ({ h with shouldExit := true }, .ok .null)

/-- The `{"name": ..., "description": ...}` entry `_handle_tools_list`
builds for one tool. -/
def toolEntry (t : LLMTool) : Json :=
  .obj [("name", .str t.name), ("description", .str t.description)]

/-- `_handle_tools_list` as it stands in `rpc.py`: returns every tool's
name/description entry; the params (including any `cursor`) are ignored and
no `nextCursor` is ever produced. -/
def handleToolsList (h : JsonRpcHandler) (_params : List (String × Json)) :
    JsonRpcHandler × Except PyExc Json :=
  (h, .ok (.obj [("tools", .arr (h.tools.map toolEntry))]))

/-- `_handle_tools_call`: resolves the tool by name with a linear scan
(first match); a missing tool raises `JsonRpcError(-32601, ...)`; the
tool's return value is passed through as the result, and an exception the
tool raises propagates out of the handler. A non-dict `arguments` value
makes the `**` expansion raise a `TypeError` whose CPython message is
`"<qualname>() argument after ** must be a mapping, not <type>"`; the
qualified-name prefix depends on the tool's concrete class (an external
collaborator), abbreviated to `run()` here. -/
def handleToolsCall (h : JsonRpcHandler) (params : List (String × Json)) :
    JsonRpcHandler × Except PyExc Json :=
  let toolName := (Json.lookup params "name").getD .null
  let toolArguments := (Json.lookup params "arguments").getD (.obj [])
  match h.tools.find? (fun t => toolName.eqStr t.name) with
  | none => (h, .error (.jsonRpc (-32601) ("Tool not found: " ++ pyStr toolName) none))
  | some t =>
    match toolArguments with
    | .obj kwargs =>
      match t.run kwargs with
      | .ok result => (h, .ok result)
      | .error msg => (h, .error (.other msg))
    | _ => (h, .error (.other ("run() argument after ** must be a mapping, not " ++
        pyTypeName toolArguments)))

/-- `_handle_resources_list`: a fixed empty collection. -/
def handleResourcesList (h : JsonRpcHandler) (_params : List (String × Json)) :
    JsonRpcHandler × Except PyExc Json :=
  (h, .ok (.obj [("resources", .arr []), ("nextCursor", .null)]))

/-- `_handle_prompts_list`: a fixed empty collection. -/
def handlePromptsList (h : JsonRpcHandler) (_params : List (String × Json)) :
    JsonRpcHandler × Except PyExc Json :=
  (h, .ok (.obj [("prompts", .arr []), ("nextCursor", .null)]))

/-- Dispatch on a method name known to be registered (the branches follow
`self.methods` of `JsonRpcHandler.__init__`). -/
def callMethod (h : JsonRpcHandler) (method : String) (params : List (String × Json)) :
    JsonRpcHandler × Except PyExc Json :=
  if method = "initialize" then handleIni h params
  else if method = "exit" then handleExit h params
  else if method = "tools/list" then handleToolsList h params
  else if method = "tools/call" then handleToolsCall h params
  else if method = "resources/list" then handleResourcesList h params
  else handlePromptsList h params

/-- `JsonRpcHandler.handle_request`: unknown methods become a
method-not-found error envelope; a `JsonRpcError` raised by a handler
becomes an error envelope with its code/message/data; any other exception
becomes an internal-error envelope. The embedding is a total function: the
Python method never lets an exception escape. -/
def handleRequest (h : JsonRpcHandler) (req : JsonRpcRequest) : JsonRpcHandler × Json :=
  if req.method ∈ methodNames then
    ((callMethod h req.method (req.params.getD [])).1,
      match (callMethod h req.method (req.params.getD [])).2 with
      | .ok result => createResultResponse req.id result
      | .error (.jsonRpc code message data) => createErrorResponse req.id code message data
      | .error (.other msg) => createErrorResponse req.id (-32603) ("Internal error: " ++ msg) none)
  else
    (h, createErrorResponse req.id (-32601) ("Method not found: " ++ req.method) none)

/-! ## Transports, embedded from `mojentic_mcp/transports.py` -/

/-- What a call to `McpTransport.send_request` does, as observed by the
caller: return a response, raise `McpTransportError(message)`, or raise
`JsonRpcError(code, message, data)` (`rpcError` fields are the raw JSON
values `err.get(...)` produced, `null` standing for Python `None`). -/
inductive SendOutcome where
  | ok (response : Json)
  | transportError (message : String)
  | rpcError (code : Json) (message : Json) (data : Json)

/-- Whether the outcome is the protocol-error kind (`JsonRpcError`). -/
def SendOutcome.isRpcError : SendOutcome → Bool
  | .rpcError _ _ _ => true
  | _ => false

/-- Whether the outcome is the transport-error kind (`McpTransportError`). -/
def SendOutcome.isTransportError : SendOutcome → Bool
  | .transportError _ => true
  | _ => false

/-- Whether the outcome silently returns a response. -/
def SendOutcome.isOk : SendOutcome → Bool
  | .ok _ => true
  | _ => false

/-- The observable behaviour of `httpx.Client.post` plus
`raise_for_status()` plus `.json()` on one call: a decoded 2xx body, a
body that fails JSON decoding, a non-2xx status, or a connection-level
request failure. -/
inductive PostOutcome where
  | ok (body : Json)
  | badJson (message : String)
  | statusError (code : Int) (text : String)
  | requestError (message : String)

/-- `HttpTransport.send_request`: an uninitialized client raises a
transport error before any network traffic; a decoded body carrying an
`error` field raises `JsonRpcError` built from `err.get("code"/"message"/
"data")` (this raise is not caught by the `httpx`/`json` except clauses);
HTTP status errors, request errors and undecodable bodies each raise a
transport error with the corresponding message. -/
def httpSendRequest (clientReady : Bool) (post : PostOutcome) : SendOutcome :=
  if !clientReady then
    .transportError "HTTP client not initialized. Call initialize() or use as context manager."
  else
    match post with
    | .ok body =>
      if body.objHasKey "error" then
        let err := (body.objGet "error").getD .null
        .rpcError ((err.objGet "code").getD .null) ((err.objGet "message").getD .null)
          ((err.objGet "data").getD .null)
      else .ok body
    | .badJson m => .transportError ("Invalid JSON response from server: " ++ m)
    | .statusError c t => .transportError ("HTTP error: " ++ toString c ++ " - " ++ t)
    | .requestError m => .transportError ("HTTP request failed: " ++ m)

/-- The view of `self._process` a `StdioTransport` method consults: the
pid and the liveness of the pipes and of the process (`poll() is None`). -/
structure ProcView where
  pid : Int
  stdinOpen : Bool := true
  stdoutOpen : Bool := true
  running : Bool := true

/-- The state of a `StdioTransport` instance: the command line, the child
process (if any) and the per-instance `_request_id_counter`. -/
structure StdioTransport where
  command : List String
  process : Option ProcView := none
  requestIdCounter : Nat := 1

/-- `StdioTransport.__init__`: no process yet, counter at 1. -/
def initialStdio (command : List String) : StdioTransport :=
  { command := command }

/-- What the write/read round trip inside `StdioTransport.send_request`
does once the request line is to be written: the write raises
`BrokenPipeError` (with the process's poll result and whatever stderr
yields at handling time), the read hits end of stream (with whatever text
the child wrote to stderr sitting in the pipe), the read line fails JSON
decoding, or a decoded response comes back. -/
inductive StdioExchange where
  | writeBroken (returnCode : Json) (stderrText : String)
  | eofLine (stderrBuffered : String)
  | badJson (message : String)
  | respLine (response : Json)

/-- The result of one `StdioTransport.send_request` call: the next
transport state, what the caller observes, and the counter value consumed
when an identifier was auto-assigned. -/
structure StdioSendResult where
  state : StdioTransport
  outcome : SendOutcome
  assignedId : Option Nat

/-- `StdioTransport.send_request`. The pre-check refuses a missing or dead
process or closed pipes with a transport error (consuming nothing; this
raise happens before the `try` block, so it is never re-wrapped). Inside
the lock, a request with no id is assigned the counter value and the
counter is incremented. The `BrokenPipeError` and `json.JSONDecodeError`
raises are caught by their dedicated except clauses; every other raise
inside the `try` is caught by the final generic `except Exception` clause
and re-raised as `McpTransportError("STDIO communication error: " +
str(e))`. That applies to two raises: the `McpTransportError` raised on
end of stream — whose own message names only the PID, the stderr-capture
block being a no-op (`pass`), so the buffered stderr text is never
included — and the `JsonRpcError` raised for a decoded response carrying
an `error` field, `str` of a `JsonRpcError` being its message argument. -/
def stdioSendRequest (t : StdioTransport) (req : JsonRpcRequest) (ex : StdioExchange) :
    StdioSendResult :=
  match t.process with
  | none =>
    { state := t,
      outcome := .transportError "STDIO process not running, pipes unavailable, or process terminated.",
      assignedId := none }
  | some p =>
    if !(p.stdinOpen && p.stdoutOpen && p.running) then
      { state := t,
        outcome := .transportError "STDIO process not running, pipes unavailable, or process terminated.",
        assignedId := none }
    else
      let assigned : Option Nat := if req.id.isNull then some t.requestIdCounter else none
      let t' : StdioTransport :=
        if req.id.isNull then { t with requestIdCounter := t.requestIdCounter + 1 } else t
      let outcome : SendOutcome :=
        match ex with
        | .writeBroken returnCode stderrText =>
          .transportError ("Broken pipe with STDIO process (PID: " ++ toString p.pid ++
            "). Return code: " ++ pyStr returnCode ++ ". Stderr: " ++ stderrText.take 500)
        | .eofLine _stderrBuffered =>
          .transportError ("STDIO communication error: " ++
            ("No response from STDIO process (PID: " ++ toString p.pid ++
              ") or process terminated."))
        | .badJson m => .transportError ("Invalid JSON response from STDIO server: " ++ m)
        | .respLine resp =>
          if resp.objHasKey "error" then
            let err := (resp.objGet "error").getD .null
            .transportError ("STDIO communication error: " ++
              pyStr ((err.objGet "message").getD .null))
          else .ok resp
      { state := t', outcome := outcome, assignedId := assigned }

/-- The environment `StdioTransport.shutdown` runs against: whether the
write/flush/close of the exit request succeeds, whether `poll()` still
reports the process running afterwards, and whether `wait(timeout=5)`
times out. -/
structure ShutdownEnv where
  exitWriteOk : Bool := true
  stillRunning : Bool := true
  waitTimesOut : Bool := false

/-- The process operations `StdioTransport.shutdown` performs, in order. -/
inductive ProcAction where
  | writeExitRequest (id : Nat)
  | closeStdin
  | terminateProc
  | waitProc
  | killProc
  | drainStderr
  | closeStdout

/-- The result of one `StdioTransport.shutdown` call: the next state, the
process operations performed in order, and the counter value consumed for
the exit request (when stdin was open). -/
structure ShutdownResult where
  state : StdioTransport
  actions : List ProcAction
  exitId : Option Nat

/-- `StdioTransport.shutdown`. With no process it does nothing. Otherwise,
when stdin is open it builds the exit request with the current counter
value, increments the counter (before the write can fail), writes and
closes stdin (skipped past the point of failure when the write raises,
with the exception swallowed); then, if the process still runs, it
terminates, waits up to 5 seconds and kills on timeout; finally it drains
stderr, closes stdout and drops the process. -/
def stdioShutdown (t : StdioTransport) (env : ShutdownEnv) : ShutdownResult :=
  match t.process with
  | none => { state := t, actions := [], exitId := none }
  | some p =>
    let exitId : Option Nat := if p.stdinOpen then some t.requestIdCounter else none
    let counter' := if p.stdinOpen then t.requestIdCounter + 1 else t.requestIdCounter
    let stdinActs : List ProcAction :=
      if p.stdinOpen then
        if env.exitWriteOk then [.writeExitRequest t.requestIdCounter, .closeStdin]
        else [.writeExitRequest t.requestIdCounter]
      else []
    let termActs : List ProcAction :=
      if env.stillRunning then
        [.terminateProc, .waitProc] ++ (if env.waitTimesOut then [.killProc] else [])
      else []
    { state := { t with process := none, requestIdCounter := counter' },
      actions := stdinActs ++ termActs ++ [.drainStderr, .closeStdout],
      exitId := exitId }

/-- One observable event in the life of a `StdioTransport` instance:
`initialize` starting a process, a `send_request` call, or a `shutdown`
call. -/
inductive StdioEvent where
  | ini (p : ProcView)
  | send (req : JsonRpcRequest) (ex : StdioExchange)
  | shutdownEv (env : ShutdownEnv)

/-- One step of the transport's lifetime, returning the identifier values
consumed by this event (auto-assigned request ids and exit-request ids). -/
def stdioStep (t : StdioTransport) : StdioEvent → StdioTransport × List Nat
  | .ini p => ({ t with process := some p }, [])
  | .send req ex =>
    let r := stdioSendRequest t req ex
    (r.state, r.assignedId.toList)
  | .shutdownEv env =>
    let r := stdioShutdown t env
    (r.state, r.exitId.toList)

/-- A whole trace of events, collecting every identifier value consumed. -/
def stdioRun (t : StdioTransport) : List StdioEvent → StdioTransport × List Nat
  | [] => (t, [])
  | e :: rest =>
    let (t', ids) := stdioStep t e
    let (t'', ids') := stdioRun t' rest
    (t'', ids ++ ids')

/-! ## The multi-transport client, embedded from `mojentic_mcp/client.py` -/

/-- Python truthiness of a JSON value (`if tool_name:` / `if payload.get("isError"):`). -/
def jsonTruthy : Json → Bool
  | .null => false
  | .bool b => b
  | .num n => n != 0
  | .str s => s ≠ ""
  | .arr xs => !xs.isEmpty
  | .obj fs => !fs.isEmpty

/-- One hex digit, lower case, as `json.dumps` writes them. -/
def hexDigit (n : Nat) : Char :=
  if n < 10 then Char.ofNat (48 + n) else Char.ofNat (87 + n)

/-- A four-digit lower-case hex rendering of a code point, for the
`\uXXXX` escapes `json.dumps(ensure_ascii=True)` produces. -/
def hex4 (n : Nat) : String :=
  String.mk [hexDigit (n / 4096 % 16), hexDigit (n / 256 % 16), hexDigit (n / 16 % 16),
    hexDigit (n % 16)]

/-- How `json.dumps` renders one character of a string: the two-character
escapes for quote, backslash and the common control characters, `\uXXXX`
for other control characters and (with the default `ensure_ascii`) for
everything non-ASCII, the character itself otherwise. Code points beyond
the basic plane, which Python escapes as surrogate pairs, are rendered
with a single `\uXXXX` here. -/
def jsonEscapeChar (c : Char) : String :=
  if c = '"' then "\\\""
  else if c = '\\' then "\\\\"
  else if c = '\n' then "\\n"
  else if c = '\t' then "\\t"
  else if c = '\r' then "\\r"
  else if c.toNat < 32 || c.toNat > 126 then "\\u" ++ hex4 c.toNat
  else String.mk [c]

/-- `json.dumps` of a string literal. -/
def jsonDumpsStr (s : String) : String :=
  "\"" ++ String.join (s.toList.map jsonEscapeChar) ++ "\""

/-- Insertion of one field into a key-sorted field list (`sort_keys=True`;
keys of a Python dict are unique, so ties cannot arise). -/
def insertByKey (x : String × Json) : List (String × Json) → List (String × Json)
  | [] => [x]
  | y :: ys => if x.1 ≤ y.1 then x :: y :: ys else y :: insertByKey x ys

/-- A field list sorted by key, as `json.dumps(..., sort_keys=True)` walks it. -/
def sortFields (fs : List (String × Json)) : List (String × Json) :=
  fs.foldr insertByKey []

theorem sizeOf_insertByKey (x : String × Json) (l : List (String × Json)) :
    sizeOf (insertByKey x l) = sizeOf (x :: l) := by
  induction l with
  | nil => rfl
  | cons y ys ih =>
    simp only [insertByKey]
    by_cases h : x.1 ≤ y.1
    · simp [h]
    · simp [h, ih]
      omega

theorem sizeOf_sortFields (fs : List (String × Json)) :
    sizeOf (sortFields fs) = sizeOf fs := by
  induction fs with
  | nil => rfl
  | cons f fs ih =>
    simp only [sortFields, List.foldr] at *
    rw [sizeOf_insertByKey]
    simp [ih]

mutual

/-- `json.dumps(value, sort_keys=True)` with the default separators. -/
def jsonDumps : Json → String
  | .null => "null"
  | .bool true => "true"
  | .bool false => "false"
  | .num n => toString n
  | .str s => jsonDumpsStr s
  | .arr xs => "[" ++ jsonDumpsElems xs ++ "]"
  | .obj fs => "\x7b" ++ jsonDumpsFields (sortFields fs) ++ "\x7d"
termination_by j => sizeOf j
decreasing_by
  all_goals simp_wf
  all_goals try rw [sizeOf_sortFields]
  all_goals omega

/-- The comma-separated elements of a dumped list. -/
def jsonDumpsElems : List Json → String
  | [] => ""
  | [x] => jsonDumps x
  | x :: rest => jsonDumps x ++ ", " ++ jsonDumpsElems rest
termination_by xs => sizeOf xs
decreasing_by all_goals simp_wf <;> omega

/-- The comma-separated `"key": value` entries of a dumped object. -/
def jsonDumpsFields : List (String × Json) → String
  | [] => ""
  | [(k, v)] => jsonDumpsStr k ++ ": " ++ jsonDumps v
  | (k, v) :: rest => jsonDumpsStr k ++ ": " ++ jsonDumps v ++ ", " ++ jsonDumpsFields rest
termination_by fs => sizeOf fs
decreasing_by all_goals simp_wf <;> omega

end

/-- `sum(ord(c) for c in s)`. -/
def sumOrds (s : String) : Nat :=
  (s.toList.map Char.toNat).sum

/-- The deterministic request id `McpClient.call_tool` builds from the tool
name and a digest of the keyword arguments. -/
def callToolRequestId (toolName : String) (kwargs : List (String × Json)) : String :=
  "mcp_client_call_" ++ toolName ++ "_" ++
    (if kwargs.isEmpty then "noargs" else toString (sumOrds (jsonDumps (.obj kwargs))))

/-- Python `repr` of a list of strings, as an f-string renders
`list(self._tool_to_transport_map.keys())`. -/
def pyListOfNames (names : List String) : String :=
  "[" ++ String.intercalate ", " (names.map fun s => "'" ++ s ++ "'") ++ "]"

/-- A transport as the client observes it during discovery: whether its
`initialize()` call succeeds, and what its `send_request` of the
`tools/list` request does. -/
structure ClientTransport where
  initOk : Bool := true
  listResponse : SendOutcome := .ok (.obj [])

/-- The tool-descriptor dicts a `tools/list` response contributes during
discovery: the response must carry a dict under `result` holding a list
under `tools`, and each entry must itself be a dict carrying a `name` key
(anything else is logged and skipped). -/
def validDescs (resp : Json) : List (List (String × Json)) :=
  match resp.objGet "result" with
  | some (Json.obj resFields) =>
    match Json.lookup resFields "tools" with
    | some (Json.arr tools) =>
      tools.filterMap fun td =>
        match td with
        | .obj fields => if Json.hasKey fields "name" then some fields else none
        | _ => none
    | _ => []
  | _ => []

/-- The descriptors one transport contributes: nothing when its
initialization raises or its `tools/list` call raises (the except clauses
log and skip the transport), the response's valid descriptors otherwise. -/
def transportDescs (t : ClientTransport) : List (List (String × Json)) :=
  if t.initOk then
    match t.listResponse with
    | .ok resp => validDescs resp
    | _ => []
  else []

/-- The `all_discovered_tools_with_transport` list built by
`_initialize_transports_and_discover_tools`: each transport in the
configured order contributes its valid descriptors paired with itself
(here its index). -/
def discoveredPairs (ts : List ClientTransport) : List (List (String × Json) × Nat) :=
  (List.enum ts).flatMap fun it => (transportDescs it.2).map fun d => (d, it.1)

/-- The client's registry: tool name to (descriptor dict, transport index),
in registration order (standing in for both `_tool_to_transport_map` and
`_tool_schemas`, which are keyed identically). -/
abbrev Registry := List (String × List (String × Json) × Nat)

/-- Association-list lookup in the registry. -/
def regLookup (r : Registry) (name : String) : Option (List (String × Json) × Nat) :=
  match r with
  | [] => none
  | (k, v) :: rest => if k = name then some v else regLookup rest name

/-- The registration loop of `_initialize_transports_and_discover_tools`:
a descriptor's `name` value must be a non-empty string not yet seen; the
first one wins and later advertisements of the same name are dropped. -/
def registerLoop (acc : Registry) : List (List (String × Json) × Nat) → Registry
  | [] => acc
  | (d, i) :: rest =>
    match Json.lookup d "name" with
    | some (.str s) =>
      if s != "" && (regLookup acc s).isNone then registerLoop (acc ++ [(s, d, i)]) rest
      else registerLoop acc rest
    | _ => registerLoop acc rest

/-- The registry built over an ordered transport list. -/
def buildRegistry (ts : List ClientTransport) : Registry :=
  registerLoop [] (discoveredPairs ts)

/-- The client state after `__init__`: just the (immutable) registry. -/
structure McpClient where
  registry : Registry

/-- `McpClient.__init__`: an empty transport list raises
`ValueError("At least one transport must be provided.")` before any
transport is touched; otherwise the registry is built by discovery. -/
def mkMcpClient (ts : List ClientTransport) : Except String McpClient :=
  if ts.isEmpty then .error "At least one transport must be provided."
  else .ok { registry := buildRegistry ts }

/-- `McpClient.list_tools`: the registered descriptors in registration
order. -/
def listTools (c : McpClient) : List Json :=
  c.registry.map fun e => Json.obj e.2.1

/-- `McpClient.get_tool_schema`. -/
def getToolSchema (c : McpClient) (name : String) : Option Json :=
  (regLookup c.registry name).map fun v => Json.obj v.1

/-- The registered tool names, in registration order. -/
def registryNames (c : McpClient) : List String :=
  c.registry.map Prod.fst

/-- What a `call_tool` invocation raises or returns. -/
inductive CallResult where
  | ok (payload : Json)
  | valueError (message : String)
  | toolExecutionError (message : String) (payload : Json)
  | clientError (message : String)
  | transportError (message : String)
  | rpcError (code : Json) (message : Json) (data : Json)

/-- The `tools/call` request `call_tool` builds for a registered name. -/
def callToolRequest (name : String) (kwargs : List (String × Json)) : JsonRpcRequest :=
  { method := "tools/call",
    id := .str (callToolRequestId name kwargs),
    params := some [("name", .str name), ("arguments", .obj kwargs)] }

/-- How `call_tool` turns the owning transport's `send_request` outcome
into its own result: a result payload whose `isError` is truthy becomes
`McpToolExecutionError` carrying the first content entry's `text` (when
truthy) or the generic message — unless that first entry is not a dict,
in which case `error_content[0].get("text")` raises an `AttributeError`
that the method's final generic except clause re-raises as
`McpClientError("Unexpected error calling tool '...': <str(e)>")`; a
response with no dict under `result` becomes `McpClientError`; transport
and protocol errors are re-raised unchanged. -/
def callToolOutcome (name : String) (out : SendOutcome) : CallResult :=
  match out with
  | .ok resp =>
    match resp.objGet "result" with
    | some (Json.obj payload) =>
      if jsonTruthy ((Json.lookup payload "isError").getD .null) then
        match (Json.lookup payload "content").getD (.arr []) with
        | .arr (first :: _) =>
          match first with
          | .obj ffields =>
            let tv := (Json.lookup ffields "text").getD .null
            if jsonTruthy tv then .toolExecutionError (pyStr tv) (Json.obj payload)
            else
              .toolExecutionError
                ("Tool '" ++ name ++ "' execution reported an error on the server.")
                (Json.obj payload)
          | _ =>
            .clientError ("Unexpected error calling tool '" ++ name ++ "': '" ++
              pyTypeName first ++ "' object has no attribute 'get'")
        | _ =>
          .toolExecutionError
            ("Tool '" ++ name ++ "' execution reported an error on the server.")
            (Json.obj payload)
      else .ok (.obj payload)
    | _ =>
      .clientError ("Invalid response from server for tool '" ++ name ++
        "': Malformed response.")
  | .transportError m => .transportError m
  | .rpcError code message data => .rpcError code message data

/-- `McpClient.call_tool`. An unregistered name raises `ValueError`
enumerating the known tool names, before any transport is consulted (the
second component records the dispatched transport index and request:
`none` means nothing was sent). Otherwise the owning transport's
`send_request` runs on a `tools/call` request with the deterministic id;
a result payload whose `isError` is truthy becomes `McpToolExecutionError`
carrying the first content entry's `text` (when truthy) or a generic
message; a response with no dict under `result` becomes `McpClientError`;
transport and protocol errors are re-raised unchanged. -/
def callTool (c : McpClient) (name : String) (kwargs : List (String × Json))
    (sendF : Nat → JsonRpcRequest → SendOutcome) :
    CallResult × Option (Nat × JsonRpcRequest) :=
  match regLookup c.registry name with
  | none =>
    (.valueError ("Tool '" ++ name ++ "' not found. Available tools: " ++
      pyListOfNames (registryNames c)), none)
  | some (_, idx) =>
    (callToolOutcome name (sendF idx (callToolRequest name kwargs)),
      some (idx, callToolRequest name kwargs))


/-- Whether a descriptor dict advertises the (string) tool name `n`. -/
def descNamed (d : List (String × Json)) (n : String) : Bool :=
  match Json.lookup d "name" with
  | some (.str s) => s == n
  | _ => false

/-- Whether the first character list is a prefix of the second. -/
def charsHavePrefix : List Char → List Char → Bool
  | [], _ => true
  | _ :: _, [] => false
  | p :: ps, c :: cs => p == c && charsHavePrefix ps cs

/-- Whether `pat` occurs as a contiguous sublist of the text. -/
def charsContain (pat : List Char) : List Char → Bool
  | [] => charsHavePrefix pat []
  | c :: cs => charsHavePrefix pat (c :: cs) || charsContain pat cs

/-- Whether `pat` occurs as a substring of `s` (Python `pat in s`), used to
observe whether an error message carries a given text. -/
def strContains (s pat : String) : Bool :=
  charsContain pat.toList s.toList

/-! ## Claim theorems -/

/-- C1: for every JSON-RPC request, `handle_request` returns a response
envelope carrying the originating identifier and exactly one of
`result`/`error`; the embedding is a total function because every failure
path (unknown method, `JsonRpcError` from a handler, any other exception)
is converted into an error envelope. -/
theorem handle_request_exactly_one_of_result_error
    (h : JsonRpcHandler) (req : JsonRpcRequest) :
    ((handleRequest h req).2.objGet "id" = some req.id) ∧
    ((handleRequest h req).2.objHasKey "result" = !((handleRequest h req).2.objHasKey "error")) := by
  unfold handleRequest
  by_cases hm : req.method ∈ methodNames
  · rw [if_pos hm]
    generalize (callMethod h req.method (req.params.getD [])).2 = r
    rcases r with e | v
    · rcases e with ⟨code, message, data⟩ | msg
      · rcases data with _ | d <;>
          simp [createErrorResponse, Json.objGet, Json.objHasKey, Json.lookup]
      · simp [createErrorResponse, Json.objGet, Json.objHasKey, Json.lookup]
    · simp [createResultResponse, Json.objGet, Json.objHasKey, Json.lookup]
  · rw [if_neg hm]
    simp [createErrorResponse, Json.objGet, Json.objHasKey, Json.lookup]

/-- A tool whose execution always raises (`str(e)` is `"kaboom"`). -/
def boomTool : LLMTool :=
  { name := "boom", description := "always fails", run := fun _ => .error "kaboom" }

/-- A handler serving only the raising tool. -/
def boomHandler : JsonRpcHandler := { tools := [boomTool] }

/-- A `tools/call` request addressing the raising tool. -/
def boomCallReq : JsonRpcRequest :=
  { id := .num 7, method := "tools/call",
    params := some [("name", .str "boom"), ("arguments", .obj [])] }

/-- C2 (the code's behavior at the failing input): calling a registered
tool whose execution raises makes `handle_request` return a
protocol-level error envelope with code -32603 and no `result` payload at
all — not, as the claim and the repository's own tests state, a
successful response whose result payload is marked `isError: true`. -/
theorem tools_call_exception_becomes_protocol_error :
    (handleRequest boomHandler boomCallReq).2 =
      createErrorResponse (.num 7) (-32603) "Internal error: kaboom" none ∧
    (handleRequest boomHandler boomCallReq).2.objHasKey "result" = false ∧
    (handleRequest boomHandler boomCallReq).2.objHasKey "error" = true :=
  ⟨rfl, rfl, rfl⟩

/-- Fifteen tools, as in the repository's own pagination test. -/
def paginationTools : List LLMTool :=
  (List.range 15).map fun i =>
    { name := "tool_" ++ toString i,
      description := "Tool " ++ toString i ++ " description",
      run := fun _ => .ok .null }

/-- A `tools/list` request with no cursor parameter. -/
def listRequestNoCursor : JsonRpcRequest :=
  { id := .num 8, method := "tools/list", params := some [] }

/-- C3 (the code's behavior at the failing input): over a catalog of 15
tools, `tools/list` with no cursor returns all 15 descriptors and no
`nextCursor` — the `_handle_tools_list` in the source has no pagination at
all, contradicting the claim (and the repository's own test) that the
first page holds 10 entries and a cursor `"10"`. -/
theorem tools_list_has_no_pagination :
    (handleRequest { tools := paginationTools } listRequestNoCursor).2 =
      createResultResponse (.num 8) (.obj [("tools", .arr (paginationTools.map toolEntry))]) ∧
    (paginationTools.map toolEntry).length = 15 ∧
    ((handleRequest { tools := paginationTools } listRequestNoCursor).2.objGet "result").map
      (fun r => r.objHasKey "nextCursor") = some false :=
  ⟨rfl, rfl, rfl⟩

/-- The `examine` tool of the repository's tests. -/
def examineTool : LLMTool :=
  { name := "examine",
    description := "Examine a Python codebase and generate documentation",
    run := fun _ => .ok (.obj [("status", .str "success")]) }

/-- A `tools/list` request whose cursor does not parse as a number. -/
def invalidCursorReq : JsonRpcRequest :=
  { id := .num 10, method := "tools/list", params := some [("cursor", .str "invalid")] }

/-- C4 (the code's behavior at the failing input): a `tools/list` request
with the non-numeric cursor `"invalid"` is answered with an ordinary
result envelope listing every tool — `_handle_tools_list` ignores its
params entirely, so the invalid-params error envelope with message
`"Invalid cursor format"` required by the claim (and by the repository's
own test) is never produced. -/
theorem tools_list_invalid_cursor_not_rejected :
    (handleRequest { tools := [examineTool] } invalidCursorReq).2 =
      createResultResponse (.num 10) (.obj [("tools", .arr [toolEntry examineTool])]) ∧
    (handleRequest { tools := [examineTool] } invalidCursorReq).2.objHasKey "error" = false :=
  ⟨rfl, rfl⟩

theorem regLookup_append_single (acc : Registry) (s : String)
    (v : List (String × Json) × Nat) (n : String) :
    regLookup (acc ++ [(s, v)]) n =
      (regLookup acc n).or (if s = n then some v else none) := by
  induction acc with
  | nil => simp [regLookup]
  | cons e rest ih =>
    by_cases he : e.1 = n
    · simp [regLookup, he]
    · simp only [List.cons_append, regLookup, he, if_false]
      exact ih

theorem regLookup_registerLoop (l : List (List (String × Json) × Nat)) (acc : Registry)
    (n : String) (hn : n ≠ "") :
    regLookup (registerLoop acc l) n =
      (regLookup acc n).or (l.find? fun di => descNamed di.1 n) := by
  induction l generalizing acc with
  | nil => simp [registerLoop, List.find?]
  | cons di rest ih =>
    rcases di with ⟨d, i⟩
    simp only [registerLoop]
    rcases hname : Json.lookup d "name" with _ | v
    · rw [ih acc]
      have hd : descNamed d n = false := by simp [descNamed, hname]
      simp [List.find?, hd]
    · rcases v with _ | b | m | s | xs | fs
      case str =>
        dsimp only
        by_cases hreg : (s != "" && (regLookup acc s).isNone) = true
        · rw [if_pos hreg, ih, regLookup_append_single]
          by_cases hsn : s = n
          · have hd : descNamed d n = true := by simp [descNamed, hname, hsn]
            have hnone : regLookup acc n = none := by
              rcases Bool.and_eq_true_iff.mp hreg with ⟨_, h2⟩
              rw [← hsn]
              exact Option.isNone_iff_eq_none.mp h2
            simp [List.find?, hd, hnone, hsn]
          · have hd : descNamed d n = false := by simp [descNamed, hname, hsn]
            simp [List.find?, hd, hsn]
        · rw [if_neg hreg, ih]
          by_cases hsn : s = n
          · have hd : descNamed d n = true := by simp [descNamed, hname, hsn]
            have hsome : ∃ v, regLookup acc n = some v := by
              rcases hs' : regLookup acc n with _ | v
              · exfalso
                apply hreg
                have hs2 : regLookup acc s = none := by rw [hsn]; exact hs'
                have hne : s ≠ "" := by rw [hsn]; exact hn
                simp [hs2, hne]
              · exact ⟨v, rfl⟩
            rcases hsome with ⟨v, hv⟩
            simp [List.find?, hd, hv]
          · have hd : descNamed d n = false := by simp [descNamed, hname, hsn]
            simp [List.find?, hd]
      all_goals
        dsimp only
        rw [ih acc]
        have hd : descNamed d n = false := by simp [descNamed, hname]
        simp [List.find?, hd]

theorem discoveredPairs_pair (A B : ClientTransport) :
    discoveredPairs [A, B] =
      ((transportDescs A).map fun d => (d, 0)) ++ ((transportDescs B).map fun d => (d, 1)) := by
  simp [discoveredPairs, List.enum, List.enumFrom]

/-- The descriptors of the C5 scenario: transport A advertises `x` and
`shared`, transport B advertises `y` and its own `shared`. -/
def descX : List (String × Json) :=
  [("name", .str "x"), ("description", .str "Tool X from A")]

/-- The first transport's `shared` descriptor. -/
def descSharedA : List (String × Json) :=
  [("name", .str "shared"), ("description", .str "Shared tool from A")]

/-- The second transport's `y` descriptor. -/
def descY : List (String × Json) :=
  [("name", .str "y"), ("description", .str "Tool Y from B")]

/-- The second transport's `shared` descriptor (dropped by first-wins). -/
def descSharedB : List (String × Json) :=
  [("name", .str "shared"), ("description", .str "Shared tool from B")]

/-- A well-formed `tools/list` response advertising the given descriptors. -/
def listResponseOf (descs : List (List (String × Json))) : Json :=
  .obj [("jsonrpc", .str "2.0"), ("id", .str "mcp_client_tools_list_1"),
    ("result", .obj [("tools", .arr (descs.map Json.obj))])]

/-- Transport A of the C5 scenario. -/
def transportA : ClientTransport := { listResponse := .ok (listResponseOf [descX, descSharedA]) }

/-- Transport B of the C5 scenario. -/
def transportB : ClientTransport := { listResponse := .ok (listResponseOf [descY, descSharedB]) }

/-- The client built over `[transportA, transportB]`. -/
def clientAB : McpClient := { registry := buildRegistry [transportA, transportB] }

/-- C5: with an ordered pair of transports, when the first transport's
first valid advertisement of a (non-empty) name `n` is `dA` — in
particular whenever both transports advertise `n` — `get_tool_schema n`
returns `dA` and `call_tool n` always routes to the first transport, the
later advertisement never overwriting the registration; and concretely,
with A advertising `x, shared` and B advertising `y, shared`,
`list_tools` returns exactly the three entries `x, shared, y` with
`shared`'s descriptor taken from A. -/
theorem client_first_wins
    (A B : ClientTransport) (n : String) (dA : List (String × Json))
    (hn : n ≠ "")
    (hA : (transportDescs A).find? (fun d => descNamed d n) = some dA)
    (_hB : ((transportDescs B).find? (fun d => descNamed d n)).isSome = true) :
    (getToolSchema { registry := buildRegistry [A, B] } n = some (.obj dA) ∧
      ∀ kwargs sendF,
        ((callTool { registry := buildRegistry [A, B] } n kwargs sendF).2).map Prod.fst =
          some 0) ∧
    (registryNames clientAB = ["x", "shared", "y"] ∧
      listTools clientAB = [.obj descX, .obj descSharedA, .obj descY] ∧
      getToolSchema clientAB "shared" = some (.obj descSharedA)) := by
  have hkey : regLookup (buildRegistry [A, B]) n = some (dA, 0) := by
    rw [buildRegistry, regLookup_registerLoop _ _ _ hn, discoveredPairs_pair]
    rw [List.find?_append, List.find?_map]
    have hA' : List.find?
        ((fun di : List (String × Json) × Nat => descNamed di.1 n) ∘ fun d => (d, 0))
        (transportDescs A) = some dA := hA
    rw [hA']
    simp [regLookup]
  refine ⟨⟨?_, ?_⟩, rfl, rfl, rfl⟩
  · simp [getToolSchema, hkey]
  · intro kwargs sendF
    simp [callTool, hkey]

/-- C5 witness: in the concrete scenario, `shared` resolves to transport
A's descriptor. -/
theorem client_first_wins_witness :
    getToolSchema { registry := buildRegistry [transportA, transportB] } "shared" =
      some (.obj descSharedA) :=
  (client_first_wins transportA transportB "shared" descSharedA (by decide) rfl rfl).1.1

/-- C8: client-usage failures surface immediately without any request
being dispatched: constructing the client over an empty transport list
raises the configuration `ValueError`, and `call_tool` with a name absent
from the registry raises a `ValueError` enumerating the currently known
tool names while dispatching nothing (the second component `none` records
that no transport was consulted). -/
theorem client_usage_failures_immediate
    (c : McpClient) (name : String) (kwargs : List (String × Json))
    (sendF : Nat → JsonRpcRequest → SendOutcome)
    (habs : regLookup c.registry name = none) :
    mkMcpClient [] = .error "At least one transport must be provided." ∧
    callTool c name kwargs sendF =
      (.valueError ("Tool '" ++ name ++ "' not found. Available tools: " ++
        pyListOfNames (registryNames c)), none) := by
  refine ⟨rfl, ?_⟩
  simp [callTool, habs]

/-- C8 witness: calling the unknown name `unknown_tool` on the concrete
client raises the enumerating `ValueError` without dispatch. -/
theorem client_usage_failures_immediate_witness :
    mkMcpClient [] = .error "At least one transport must be provided." ∧
    callTool clientAB "unknown_tool" [] (fun _ _ => .ok (.obj [])) =
      (.valueError ("Tool 'unknown_tool' not found. Available tools: " ++
        pyListOfNames (registryNames clientAB)), none) :=
  client_usage_failures_immediate clientAB "unknown_tool" [] (fun _ _ => .ok (.obj [])) rfl

theorem stdioStep_ids (t : StdioTransport) (e : StdioEvent) :
    ((stdioStep t e).2 = [] ∧ (stdioStep t e).1.requestIdCounter = t.requestIdCounter) ∨
    ((stdioStep t e).2 = [t.requestIdCounter] ∧
      (stdioStep t e).1.requestIdCounter = t.requestIdCounter + 1) := by
  cases e with
  | ini p => exact .inl ⟨rfl, rfl⟩
  | send req ex =>
    rcases hp : t.process with _ | p
    · exact .inl (by simp [stdioStep, stdioSendRequest, hp])
    · by_cases hready : (p.stdinOpen && p.stdoutOpen && p.running) = true
      · by_cases hid : req.id.isNull = true
        · exact .inr (by simp [stdioStep, stdioSendRequest, hp, hready, hid])
        · refine .inl (by simp [stdioStep, stdioSendRequest, hp, hready, hid])
      · exact .inl (by simp [stdioStep, stdioSendRequest, hp, hready])
  | shutdownEv env =>
    rcases hp : t.process with _ | p
    · exact .inl (by simp [stdioStep, stdioShutdown, hp])
    · by_cases hs : p.stdinOpen = true
      · exact .inr (by simp [stdioStep, stdioShutdown, hp, hs])
      · exact .inl (by simp [stdioStep, stdioShutdown, hp, hs])

theorem stdioRun_ids (evs : List StdioEvent) (t : StdioTransport) :
    (stdioRun t evs).2 = List.range' t.requestIdCounter (stdioRun t evs).2.length ∧
    (stdioRun t evs).1.requestIdCounter = t.requestIdCounter + (stdioRun t evs).2.length := by
  induction evs generalizing t with
  | nil => simp [stdioRun]
  | cons e rest ih =>
    obtain ⟨ih1, ih2⟩ := ih (stdioStep t e).1
    simp only [stdioRun]
    rcases stdioStep_ids t e with ⟨h1, h2⟩ | ⟨h1, h2⟩
    · rw [h2] at ih1 ih2
      rw [h1, List.nil_append]
      exact ⟨ih1, ih2⟩
    · rw [h2] at ih1 ih2
      rw [h1]
      constructor
      · have hl : ([t.requestIdCounter] ++ (stdioRun (stdioStep t e).1 rest).2).length =
            (stdioRun (stdioStep t e).1 rest).2.length + 1 := by simp
        rw [hl, List.range'_succ, List.singleton_append]
        conv_lhs => rw [ih1]
      · have hl : ([t.requestIdCounter] ++ (stdioRun (stdioStep t e).1 rest).2).length =
            (stdioRun (stdioStep t e).1 rest).2.length + 1 := by simp
        rw [hl, ih2]
        omega

/-- C7: over any lifetime of a pipe-transport instance (initializations,
sends, shutdowns in any order), the identifier counter starts at 1 and the
sequence of identifier values it hands out — to requests sent without a
caller-supplied identifier and to shutdown's exit request — is exactly
`1, 2, 3, ...`: strictly increasing, with no value ever reused. -/
theorem stdio_assigned_ids_monotone (command : List String) (evs : List StdioEvent) :
    (initialStdio command).requestIdCounter = 1 ∧
    (stdioRun (initialStdio command) evs).2 =
      List.range' 1 (stdioRun (initialStdio command) evs).2.length ∧
    List.Pairwise (· < ·) (stdioRun (initialStdio command) evs).2 ∧
    (stdioRun (initialStdio command) evs).2.Nodup := by
  have h := (stdioRun_ids evs (initialStdio command)).1
  have hrange : (stdioRun (initialStdio command) evs).2 =
      List.range' 1 (stdioRun (initialStdio command) evs).2.length := h
  refine ⟨rfl, hrange, ?_, ?_⟩
  · rw [hrange]
    exact List.pairwise_lt_range' 1 _ 1 Nat.one_pos
  · rw [hrange]
    exact (List.pairwise_lt_range' 1 _ 1 Nat.one_pos).imp fun hab => Nat.ne_of_lt hab

/-- A pipe transport with a live process (pid 12345), pipes open. -/
def liveStdioT : StdioTransport := { command := ["my_server"], process := some { pid := 12345 } }

/-- A request carrying a caller-supplied identifier. -/
def plainReq : JsonRpcRequest := { id := .num 1, method := "test" }

/-- C9 counterexample: when the child's output stream ends while `"boom"`
sits buffered on stderr, the caller sees the EOF `McpTransportError` —
re-wrapped by the final generic except clause into the transport error
`"STDIO communication error: No response from STDIO process (PID: ...) or
process terminated."` — whose message names only the PID and does not
include the buffered stderr text (the stderr-capture block in the source
is a no-op), refuting the claim that the error includes any buffered
standard-error text. -/
theorem stdio_eof_error_omits_stderr :
    (stdioSendRequest liveStdioT plainReq (.eofLine "boom")).outcome =
      .transportError
        "STDIO communication error: No response from STDIO process (PID: 12345) or process terminated." ∧
    strContains
      "STDIO communication error: No response from STDIO process (PID: 12345) or process terminated."
      "boom" = false :=
  ⟨rfl, rfl⟩

/-- C9 (amended): when the child's output stream ends before a response
line is read, `send_request` raises a transport error naming the process
— rather than hanging or returning a partial response. The EOF raise is
itself caught by the final generic except clause, so the observed message
is the re-wrapped `"STDIO communication error: No response from STDIO
process (PID: ...) or process terminated."`; whatever text sits in the
stderr buffer is not included in it. -/
theorem stdio_eof_raises_transport_error (t : StdioTransport) (req : JsonRpcRequest)
    (p : ProcView) (stderrBuffered : String)
    (hp : t.process = some p)
    (hready : (p.stdinOpen && p.stdoutOpen && p.running) = true) :
    (stdioSendRequest t req (.eofLine stderrBuffered)).outcome =
      .transportError ("STDIO communication error: " ++
        ("No response from STDIO process (PID: " ++ toString p.pid ++
          ") or process terminated.")) := by
  simp [stdioSendRequest, hp, hready]

/-- C9 witness: the amended statement evaluated at the concrete transport. -/
theorem stdio_eof_raises_transport_error_witness :
    (stdioSendRequest liveStdioT plainReq (.eofLine "boom")).outcome =
      .transportError
        "STDIO communication error: No response from STDIO process (PID: 12345) or process terminated." :=
  stdio_eof_raises_transport_error liveStdioT plainReq { pid := 12345 } "boom" rfl rfl

/-- The error object of a JSON-RPC error response. -/
def errFieldsX : List (String × Json) :=
  [("code", .num (-32601)), ("message", .str "Method Not Found via STDIO")]

/-- A well-formed response carrying an `error` field. -/
def stdioErrResponse : Json :=
  .obj [("jsonrpc", .str "2.0"), ("id", .num 1), ("error", .obj errFieldsX)]

/-- C6 counterexample: on the pipe transport, a well-formed response
carrying an `error` field does NOT surface as the protocol-error kind:
the internally raised `JsonRpcError` is caught by the final generic
except clause and re-raised as `McpTransportError`, so the caller sees
the transport-error kind — refuting the claim for the STDIO transport. -/
theorem stdio_error_response_not_rpc_error :
    (stdioSendRequest liveStdioT plainReq (.respLine stdioErrResponse)).outcome =
      .transportError "STDIO communication error: Method Not Found via STDIO" ∧
    (stdioSendRequest liveStdioT plainReq (.respLine stdioErrResponse)).outcome.isRpcError =
      false :=
  ⟨rfl, rfl⟩

/-- C6 (amended): an initialized HTTP transport surfaces a response
carrying an `error` object as `JsonRpcError` with its code, message and
data — a kind distinct from `McpTransportError` — while the STDIO
transport raises the `JsonRpcError` internally but delivers it wrapped as
a `McpTransportError` whose message carries the server-reported error
message; neither transport silently returns a response whose `error`
field it ignored. -/
theorem send_surfaces_error_responses
    (body : Json) (errFields : List (String × Json))
    (hbody : body.objGet "error" = some (.obj errFields))
    (t : StdioTransport) (req : JsonRpcRequest) (p : ProcView) (resp : Json)
    (hp : t.process = some p)
    (hready : (p.stdinOpen && p.stdoutOpen && p.running) = true)
    (hresp : resp.objGet "error" = some (.obj errFields)) :
    httpSendRequest true (.ok body) =
      .rpcError ((Json.lookup errFields "code").getD .null)
        ((Json.lookup errFields "message").getD .null)
        ((Json.lookup errFields "data").getD .null) ∧
    (stdioSendRequest t req (.respLine resp)).outcome =
      .transportError ("STDIO communication error: " ++
        pyStr ((Json.lookup errFields "message").getD .null)) ∧
    (httpSendRequest true (.ok body)).isOk = false ∧
    (stdioSendRequest t req (.respLine resp)).outcome.isOk = false := by
  have hhttp : httpSendRequest true (.ok body) =
      .rpcError ((Json.lookup errFields "code").getD .null)
        ((Json.lookup errFields "message").getD .null)
        ((Json.lookup errFields "data").getD .null) := by
    simp [httpSendRequest, Json.objHasKey, hbody]
    simp [Json.objGet]
  have hstdio : (stdioSendRequest t req (.respLine resp)).outcome =
      .transportError ("STDIO communication error: " ++
        pyStr ((Json.lookup errFields "message").getD .null)) := by
    simp [stdioSendRequest, hp, hready, Json.objHasKey, hresp]
    simp [Json.objGet]
  exact ⟨hhttp, hstdio, by rw [hhttp]; rfl, by rw [hstdio]; rfl⟩

/-- A 2xx HTTP body carrying an `error` field. -/
def httpErrBody : Json :=
  .obj [("jsonrpc", .str "2.0"), ("id", .num 1), ("error", .obj errFieldsX)]

/-- C6 witness: the amended statement evaluated at concrete inputs. -/
theorem send_surfaces_error_responses_witness :
    httpSendRequest true (.ok httpErrBody) =
      .rpcError (.num (-32601)) (.str "Method Not Found via STDIO") .null ∧
    (stdioSendRequest liveStdioT plainReq (.respLine stdioErrResponse)).outcome =
      .transportError "STDIO communication error: Method Not Found via STDIO" :=
  ⟨(send_surfaces_error_responses httpErrBody errFieldsX rfl liveStdioT plainReq
      { pid := 12345 } stdioErrResponse rfl rfl rfl).1,
   (send_surfaces_error_responses httpErrBody errFieldsX rfl liveStdioT plainReq
      { pid := 12345 } stdioErrResponse rfl rfl rfl).2.1⟩

/-- C10: `StdioTransport.shutdown` with a live process and open stdin
first writes the exit request — consuming the next value of the same
identifier counter `send_request` uses — and closes stdin, then (when the
process still runs) terminates and waits, killing only on timeout, and
finally drains stderr, closes stdout and drops the process; a call with
no process (in particular any second call after a completed shutdown)
performs no process operation and completes without error. -/
theorem stdio_shutdown_spec (t : StdioTransport) (p : ProcView) (env : ShutdownEnv)
    (hp : t.process = some p) (hstdin : p.stdinOpen = true) (hw : env.exitWriteOk = true) :
    ((stdioShutdown t env).actions =
      [ProcAction.writeExitRequest t.requestIdCounter, ProcAction.closeStdin] ++
        (if env.stillRunning then
          [ProcAction.terminateProc, ProcAction.waitProc] ++
            (if env.waitTimesOut then [ProcAction.killProc] else [])
        else []) ++ [ProcAction.drainStderr, ProcAction.closeStdout]) ∧
    (stdioShutdown t env).exitId = some t.requestIdCounter ∧
    (stdioShutdown t env).state.requestIdCounter = t.requestIdCounter + 1 ∧
    (stdioShutdown t env).state.process = none ∧
    (∀ env', stdioShutdown (stdioShutdown t env).state env' =
      { state := (stdioShutdown t env).state, actions := [], exitId := none }) ∧
    (∀ t' env', t'.process = none →
      stdioShutdown t' env' = { state := t', actions := [], exitId := none }) := by
  have hnone : ∀ t' env', t'.process = none →
      stdioShutdown t' env' = { state := t', actions := [], exitId := none } := by
    intro t' env' hnp
    simp [stdioShutdown, hnp]
  have hstate : (stdioShutdown t env).state.process = none := by
    simp [stdioShutdown, hp]
  refine ⟨?_, ?_, ?_, hstate, fun env' => hnone _ env' hstate, hnone⟩
  · simp [stdioShutdown, hp, hstdin, hw]
  · simp [stdioShutdown, hp, hstdin]
  · simp [stdioShutdown, hp, hstdin]

/-- C10 witness: shutdown of the concrete live transport consumes counter
value 1, drops the process, and a second shutdown does nothing. -/
theorem stdio_shutdown_spec_witness :
    (stdioShutdown liveStdioT {}).exitId = some 1 ∧
    (stdioShutdown liveStdioT {}).state.process = none :=
  ⟨(stdio_shutdown_spec liveStdioT { pid := 12345 } {} rfl rfl rfl).2.1,
   (stdio_shutdown_spec liveStdioT { pid := 12345 } {} rfl rfl rfl).2.2.2.1⟩

end MojenticMcp
